import Mathlib

/-!
# AdaTP relay server: formal model

A shallow embedding of the AdaTP relay server (`src/server/src/main.rs`,
`src/server/src/api.rs`): the binary packet codec, the TCP connection
handler `handle_connection` and the WebSocket handler `handle_socket`,
modelled as pure step functions over explicit session state, with the
network reads and broadcast-bus receipts of a session supplied as an
explicit event list.  Bytes are `Nat` values below 256.
-/

set_option maxRecDepth 4000

/-- Modelled from the spec: the closed `MessageType` enumeration of the
`adatp_core` crate (the crate itself is outside the server sources);
§3 lists the variants and requires a catch-all for unknown tag values. -/
inductive MessageType where
  | HandshakeInit
  | HandshakeResponse
  | HandshakeComplete
  | AuthRequest
  | AuthSuccess
  | JoinRoom
  | TextMessage
  | FileInit
  | FileChunk
  | FileComplete
  | VoiceData
  | VideoData
  | PresenceUpdate
  | Disconnect
  | Unknown (tag : Nat)
  deriving DecidableEq, Repr

/-- Modelled from the spec: the one-byte enumerated tag of a message type
(§6 wire format); unknown tags round-trip through the catch-all variant. -/
def MessageType.tag : MessageType → Nat
  | .HandshakeInit => 0
  | .HandshakeResponse => 1
  | .HandshakeComplete => 2
  | .AuthRequest => 3
  | .AuthSuccess => 4
  | .JoinRoom => 5
  | .TextMessage => 6
  | .FileInit => 7
  | .FileChunk => 8
  | .FileComplete => 9
  | .VoiceData => 10
  | .VideoData => 11
  | .PresenceUpdate => 12
  | .Disconnect => 13
  | .Unknown t => t

/-- Modelled from the spec: decoding a tag byte back to a `MessageType`;
out-of-range tags decode to the catch-all `Unknown` variant (§4.1). -/
def decodeMsgType (t : Nat) : MessageType :=
  if t = 0 then .HandshakeInit
  else if t = 1 then .HandshakeResponse
  else if t = 2 then .HandshakeComplete
  else if t = 3 then .AuthRequest
  else if t = 4 then .AuthSuccess
  else if t = 5 then .JoinRoom
  else if t = 6 then .TextMessage
  else if t = 7 then .FileInit
  else if t = 8 then .FileChunk
  else if t = 9 then .FileComplete
  else if t = 10 then .VoiceData
  else if t = 11 then .VideoData
  else if t = 12 then .PresenceUpdate
  else if t = 13 then .Disconnect
  else .Unknown t

/-- A tag is wellformed when the `Unknown` catch-all is only used for
tag bytes outside the assigned range. -/
def MessageType.tagOk : MessageType → Bool
  | .Unknown t => decide (14 ≤ t) && decide (t < 256)
  | _ => true

/-- Modelled from the spec: the fixed packet header — message type,
fixed-width opaque `session_id` (16 bytes, a UUID), one flags byte (§6). -/
structure PacketHeader where
  msg_type : MessageType
  session_id : Nat
  flags : Nat
  deriving DecidableEq, Repr

/-- Modelled from the spec: a protocol packet — header plus
variable-length payload (§3). -/
structure Packet where
  header : PacketHeader
  payload : List Nat
  deriving DecidableEq, Repr

/-- Modelled from the spec: `Packet::new(msg_type, payload, session_id)`
constructs a packet with zero flags (§3: flags currently zero-effect). -/
def Packet.new (t : MessageType) (payload : List Nat) (session_id : Nat) : Packet :=
  { header := { msg_type := t, session_id := session_id, flags := 0 }, payload := payload }

/-- Big-endian encoding of a natural number into a fixed number of bytes. -/
def natToBytesBE : Nat → Nat → List Nat
  | 0, _ => []
  | w + 1, v => natToBytesBE w (v / 256) ++ [v % 256]

/-- Big-endian reading of a byte list back into a natural number. -/
def bytesFromBE (l : List Nat) : Nat :=
  l.foldl (fun acc b => acc * 256 + b) 0

/-- Modelled from the spec: `Packet::to_bytes` — the self-describing wire
form `[type | session_id | flags | payload_len | payload]` of §6, with a
16-byte session id and a 4-byte big-endian payload length. -/
def Packet.to_bytes (p : Packet) : List Nat :=
  p.header.msg_type.tag :: natToBytesBE 16 p.header.session_id
    ++ p.header.flags :: natToBytesBE 4 p.payload.length
    ++ p.payload

/-- Modelled from the spec: `Packet::from_bytes` — fails on a header too
short for the fixed fields or on a payload not matching the declared
length, and is total otherwise (§4.1). -/
def Packet.from_bytes (bytes : List Nat) : Option Packet :=
  if bytes.length < 22 then none
  else
    let tag := bytes.headD 0
    let sid := bytesFromBE ((bytes.drop 1).take 16)
    let flags := (bytes.drop 17).headD 0
    let plen := bytesFromBE ((bytes.drop 18).take 4)
    let payload := bytes.drop 22
    if payload.length = plen then
      some { header := { msg_type := decodeMsgType tag, session_id := sid, flags := flags },
             payload := payload }
    else none

/-- A packet is wellformed when every field fits its fixed-width wire
slot; every packet read off a real socket satisfies this. -/
def Packet.wf (p : Packet) : Bool :=
  p.header.msg_type.tagOk
    && decide (p.header.session_id < 256 ^ 16)
    && decide (p.header.flags < 256)
    && decide (p.payload.length < 256 ^ 4)
    && p.payload.all (fun b => b < 256)

/-- UTF-8 byte validation and decoding, modelling Rust's
`std::str::from_utf8`: strict rejection of overlong forms, surrogate
code points and values beyond U+10FFFF. -/
def utf8DecodeList : List Nat → Option (List Char)
  | [] => some []
  | b0 :: rest =>
    if b0 < 0x80 then
      (utf8DecodeList rest).map (fun cs => Char.ofNat b0 :: cs)
    else if 0xC2 ≤ b0 ∧ b0 ≤ 0xDF then
      match rest with
      | b1 :: rest2 =>
        if 0x80 ≤ b1 ∧ b1 ≤ 0xBF then
          (utf8DecodeList rest2).map
            (fun cs => Char.ofNat ((b0 - 0xC0) * 64 + (b1 - 0x80)) :: cs)
        else none
      | [] => none
    else if 0xE0 ≤ b0 ∧ b0 ≤ 0xEF then
      match rest with
      | b1 :: b2 :: rest2 =>
        let lo1 := if b0 = 0xE0 then 0xA0 else 0x80
        let hi1 := if b0 = 0xED then 0x9F else 0xBF
        if (lo1 ≤ b1 ∧ b1 ≤ hi1) ∧ (0x80 ≤ b2 ∧ b2 ≤ 0xBF) then
          (utf8DecodeList rest2).map
            (fun cs => Char.ofNat ((b0 - 0xE0) * 4096 + (b1 - 0x80) * 64 + (b2 - 0x80)) :: cs)
        else none
      | _ => none
    else if 0xF0 ≤ b0 ∧ b0 ≤ 0xF4 then
      match rest with
      | b1 :: b2 :: b3 :: rest2 =>
        let lo1 := if b0 = 0xF0 then 0x90 else 0x80
        let hi1 := if b0 = 0xF4 then 0x8F else 0xBF
        if (lo1 ≤ b1 ∧ b1 ≤ hi1) ∧ (0x80 ≤ b2 ∧ b2 ≤ 0xBF) ∧ (0x80 ≤ b3 ∧ b3 ≤ 0xBF) then
          (utf8DecodeList rest2).map
            (fun cs => Char.ofNat ((b0 - 0xF0) * 262144 + (b1 - 0x80) * 4096
              + (b2 - 0x80) * 64 + (b3 - 0x80)) :: cs)
        else none
      | _ => none
    else none

/-- `std::str::from_utf8` on a byte list: the decoded string, or `none`
on invalid UTF-8. -/
def from_utf8 (bytes : List Nat) : Option String :=
  (utf8DecodeList bytes).map fun cs => String.mk cs

/-- The UTF-8 bytes of an ASCII string literal (all source literals fed
to `Bytes::from` in the server are ASCII, where UTF-8 is the identity). -/
def strBytes (s : String) : List Nat :=
  s.data.map Char.toNat

/-! ## Metric events (the metrics collaborator's call contract, §6) -/

/-- One call into the metrics collaborator: connection count up/down,
received bytes, sent bytes. -/
inductive MetricEvent where
  | inc_connection
  | dec_connection
  | add_rx (n : Nat)
  | add_tx (n : Nat)
  deriving DecidableEq, Repr

/-! ## TCP connection handler (`handle_connection`, src/server/src/main.rs) -/

/-- One outcome of `transport.read_packet()`: a packet (`Ok(Some(p))`),
orderly end of stream (`Ok(None)`), or a read error (`Err(_)`, covering
both I/O failure and a malformed frame). -/
inductive TcpRead where
  | packet (p : Packet)
  | closed
  | readErr
  deriving DecidableEq, Repr

/-- One event consumed by the TCP session's `select!` loop: a transport
read completing, or a `(room, bytes)` tuple arriving from the broadcast
bus subscription. -/
inductive TcpEvent where
  | read (r : TcpRead)
  | bus (room : String) (bytes : List Nat)
  deriving DecidableEq, Repr

/-- One observable action of the TCP handler: a `tx.send((room, bytes))`
publish onto the bus, a `write_packet` to the client, or a metrics call. -/
inductive TcpOutput where
  | publish (room : String) (bytes : List Nat)
  | write (p : Packet)
  | metric (m : MetricEvent)
  deriving DecidableEq, Repr

/-- The mutable loop state of `handle_connection`: `username`, `room` and
the `session_id` fixed at handshake completion. -/
structure TcpSession where
  username : String
  room : String
  session_id : Nat
  deriving DecidableEq, Repr

/-- One iteration of the Established-state `select!` loop of
`handle_connection` (main.rs lines 176–248): next state, outputs in
program order, and whether the loop `break`s. -/
def tcpStep (s : TcpSession) : TcpEvent → TcpSession × List TcpOutput × Bool
  | .read (.packet p) =>
    let rx := TcpOutput.metric (.add_rx p.to_bytes.length)
    match p.header.msg_type with
    | .AuthRequest =>
      let resp := Packet.new .AuthSuccess (strBytes "Welcome") s.session_id
      ({ s with username := "cbot" },
        [rx, .metric (.add_tx resp.to_bytes.length), .write resp], false)
    | .JoinRoom => ({ s with room := "files" }, [rx], false)
    | .Disconnect => (s, [rx], true)
    | .FileInit => (s, [rx, .publish s.room p.to_bytes], false)
    | .FileChunk => (s, [rx, .publish s.room p.to_bytes], false)
    | .FileComplete => (s, [rx, .publish s.room p.to_bytes], false)
    | .TextMessage => (s, [rx, .publish s.room p.to_bytes], false)
    | _ => (s, [rx], false)
  | .read .closed => (s, [], true)
  | .read .readErr => (s, [], true)
  | .bus msgRoom msgBytes =>
    if msgRoom = s.room then
      match Packet.from_bytes msgBytes with
      | some pkt => (s, [.metric (.add_tx msgBytes.length), .write pkt], false)
      | none => (s, [], false)
    else (s, [], false)

/-- Runs the TCP session loop over a list of events, stopping at the
first iteration that `break`s; returns the final state and the
accumulated outputs. -/
def tcpLoop (s : TcpSession) : List TcpEvent → TcpSession × List TcpOutput
  | [] => (s, [])
  | e :: es =>
    let r := tcpStep s e
    if r.2.2 then (r.1, r.2.1)
    else
      let rest := tcpLoop r.1 es
      (rest.1, r.2.1 ++ rest.2)

/-- Result of the TCP handshake phase: Established with the session id
the loop will use, or a fatal failure (the handler returns `Err`). -/
inductive HandshakeResult where
  | established (session_id : Nat) (out : List TcpOutput)
  | failed (out : List TcpOutput)
  deriving DecidableEq, Repr

/-- The handshake phase of `handle_connection` (main.rs lines 132–173):
the first read must be a HandshakeInit packet; the server then writes a
HandshakeResponse (32 zero bytes, echoing the init's session id); the
second read must be a HandshakeComplete packet.  Only the message types
are checked; the session id recorded for the loop is the one carried by
the HandshakeComplete packet. -/
def tcpHandshake (r1 r2 : TcpRead) : HandshakeResult :=
  match r1 with
  | .packet p1 =>
    let rx1 := TcpOutput.metric (.add_rx p1.to_bytes.length)
    if p1.header.msg_type = MessageType.HandshakeInit then
      let resp := Packet.new .HandshakeResponse (List.replicate 32 0) p1.header.session_id
      let respOut := [TcpOutput.metric (.add_tx resp.to_bytes.length), TcpOutput.write resp]
      match r2 with
      | .packet p2 =>
        let rx2 := TcpOutput.metric (.add_rx p2.to_bytes.length)
        if p2.header.msg_type = MessageType.HandshakeComplete then
          .established p2.header.session_id (rx1 :: respOut ++ [rx2])
        else .failed (rx1 :: respOut ++ [rx2])
      | _ => .failed (rx1 :: respOut)
    else .failed [rx1]
  | _ => .failed []

/-- `handle_connection` end to end: run the handshake on the first two
reads; on success run the session loop from `username = "guest"`,
`room = "global"` over the remaining events.  Returns all outputs in
program order. -/
def handle_connection (r1 r2 : TcpRead) (events : List TcpEvent) : List TcpOutput :=
  match tcpHandshake r1 r2 with
  | .failed out => out
  | .established sid out =>
    out ++ (tcpLoop { username := "guest", room := "global", session_id := sid } events).2

/-- The per-connection task spawned by `main` (main.rs lines 96–106):
increment the connection counter, run `handle_connection` (its `Err` is
only logged), then decrement the counter. -/
def tcp_task (r1 r2 : TcpRead) (events : List TcpEvent) : List TcpOutput :=
  .metric .inc_connection :: (handle_connection r1 r2 events ++ [.metric .dec_connection])

/-! ## WebSocket handler (`handle_socket`, src/server/src/api.rs) -/

/-- One outcome of `receiver.next()` on the WebSocket: a binary frame, a
close frame, end of stream (`None`), or anything else (text and control
frames, read errors) which the handler's catch-all arm ignores. -/
inductive WsMsg where
  | binary (data : List Nat)
  | close
  | streamEnd
  | other
  deriving DecidableEq, Repr

/-- One event consumed by the WebSocket session's `select!` loop: a
frame from the client, or a `(room, bytes)` tuple from the broadcast bus
subscription. -/
inductive WsEvent where
  | msg (m : WsMsg)
  | bus (room : String) (bytes : List Nat)
  deriving DecidableEq, Repr

/-- One observable action of the WebSocket handler: a publish onto the
bus, an outbound binary frame queued via `ws_tx`, or a metrics call. -/
inductive WsOutput where
  | publish (room : String) (bytes : List Nat)
  | ws_send (data : List Nat)
  | metric (m : MetricEvent)
  deriving DecidableEq, Repr

/-- The mutable state of `handle_socket`: the current `room` and the
session id captured from the first frame that decodes as a packet. -/
structure WsSession where
  room : String
  connected_session_id : Option Nat
  deriving DecidableEq, Repr

/-- One iteration of the `select!` loop of `handle_socket` (api.rs lines
109–164): next state, outputs in program order, and whether the loop
`break`s.  A binary frame that fails to decode is dropped after the
received-bytes metric; a decoded packet first captures the session id if
none is recorded yet, then is dispatched on its message type. -/
def wsStep (s : WsSession) : WsEvent → WsSession × List WsOutput × Bool
  | .msg (.binary data) =>
    let rx := WsOutput.metric (.add_rx data.length)
    match Packet.from_bytes data with
    | none => (s, [rx], false)
    | some packet =>
      let s1 : WsSession :=
        { s with connected_session_id :=
            match s.connected_session_id with
            | none => some packet.header.session_id
            | some sid => some sid }
      match packet.header.msg_type with
      | .JoinRoom =>
        match from_utf8 packet.payload with
        | some newRoom => ({ s1 with room := newRoom }, [rx], false)
        | none => (s1, [rx], false)
      | .AuthRequest =>
        let resp := Packet.new .AuthSuccess (strBytes "Access Granted") packet.header.session_id
        (s1, [rx, .ws_send resp.to_bytes], false)
      | .TextMessage => (s1, [rx, .publish s1.room data], false)
      | .FileInit => (s1, [rx, .publish s1.room data], false)
      | .FileChunk => (s1, [rx, .publish s1.room data], false)
      | .FileComplete => (s1, [rx, .publish s1.room data], false)
      | .VoiceData => (s1, [rx, .publish s1.room data], false)
      | .VideoData => (s1, [rx, .publish s1.room data], false)
      | _ => (s1, [rx], false)
  | .msg .close => (s, [], true)
  | .msg .streamEnd => (s, [], true)
  | .msg .other => (s, [], false)
  | .bus msgRoom msgBytes =>
    if msgRoom = s.room then
      (s, [.metric (.add_tx msgBytes.length), .ws_send msgBytes], false)
    else (s, [], false)

/-- Runs the WebSocket session loop over a list of events, stopping at
the first iteration that `break`s. -/
def wsLoop (s : WsSession) : List WsEvent → WsSession × List WsOutput
  | [] => (s, [])
  | e :: es =>
    let r := wsStep s e
    if r.2.2 then (r.1, r.2.1)
    else
      let rest := wsLoop r.1 es
      (rest.1, r.2.1 ++ rest.2)

/-- `handle_socket` end to end (api.rs lines 87–176): increment the
connection counter, run the loop from `room = "global"` with no captured
session id; after the loop, if a session id was captured, publish one
PresenceUpdate packet with payload "LEAVE" and that id into the current
room; finally decrement the connection counter. -/
def handle_socket (events : List WsEvent) : List WsOutput :=
  let r := wsLoop { room := "global", connected_session_id := none } events
  let leaveOut : List WsOutput :=
    match r.1.connected_session_id with
    | some sid =>
      let leave_packet := Packet.new .PresenceUpdate (strBytes "LEAVE") sid
      [.publish r.1.room leave_packet.to_bytes]
    | none => []
  .metric .inc_connection :: (r.2 ++ leaveOut ++ [.metric .dec_connection])

/-! ## Observation predicates over the handlers' outputs -/

/-- The message types the TCP loop broadcasts (main.rs line 205). -/
def tcpBroadcastType : MessageType → Bool
  | .FileInit | .FileChunk | .FileComplete | .TextMessage => true
  | _ => false

/-- The message types the WebSocket loop broadcasts (api.rs line 140). -/
def wsBroadcastType : MessageType → Bool
  | .TextMessage | .FileInit | .FileChunk | .FileComplete | .VoiceData | .VideoData => true
  | _ => false

/-- Whether a TCP read is a packet of type HandshakeInit. -/
def TcpRead.isInit : TcpRead → Bool
  | .packet p => decide (p.header.msg_type = .HandshakeInit)
  | _ => false

/-- Whether a TCP read is a packet of type HandshakeComplete. -/
def TcpRead.isComplete : TcpRead → Bool
  | .packet p => decide (p.header.msg_type = .HandshakeComplete)
  | _ => false

/-- Whether the handshake reached Established. -/
def HandshakeResult.isEstablished : HandshakeResult → Bool
  | .established _ _ => true
  | .failed _ => false

/-- The session id the loop will run with, when Established. -/
def HandshakeResult.sidOf : HandshakeResult → Option Nat
  | .established sid _ => some sid
  | .failed _ => none

/-- The outputs produced during the handshake phase, in either result. -/
def HandshakeResult.out : HandshakeResult → List TcpOutput
  | .established _ o => o
  | .failed o => o

/-- Whether a TCP output is a publish onto the broadcast bus. -/
def TcpOutput.isPublish : TcpOutput → Bool
  | .publish _ _ => true
  | _ => false

/-- Whether a WebSocket output is a publish onto the broadcast bus. -/
def WsOutput.isPublish : WsOutput → Bool
  | .publish _ _ => true
  | _ => false

/-- Whether a TCP output publishes bytes that decode as a PresenceUpdate
packet (what a remaining room subscriber would observe as a departure
notice). -/
def TcpOutput.isPresencePublish : TcpOutput → Bool
  | .publish _ bs =>
    match Packet.from_bytes bs with
    | some p => decide (p.header.msg_type = .PresenceUpdate)
    | none => false
  | _ => false

/-- Whether a WebSocket output publishes bytes that decode as a
PresenceUpdate packet. -/
def WsOutput.isPresencePublish : WsOutput → Bool
  | .publish _ bs =>
    match Packet.from_bytes bs with
    | some p => decide (p.header.msg_type = .PresenceUpdate)
    | none => false
  | _ => false

/-- Whether a TCP output is a connection-counter metrics call. -/
def TcpOutput.isConnMetric : TcpOutput → Bool
  | .metric .inc_connection => true
  | .metric .dec_connection => true
  | _ => false

/-- Whether a WebSocket output is a connection-counter metrics call. -/
def WsOutput.isConnMetric : WsOutput → Bool
  | .metric .inc_connection => true
  | .metric .dec_connection => true
  | _ => false

/-- Whether a WebSocket event is a binary frame that decodes as a
packet (the frames from which the session id may be captured). -/
def WsEvent.validFrame : WsEvent → Bool
  | .msg (.binary data) => (Packet.from_bytes data).isSome
  | _ => false

/-! ## Codec lemmas -/

theorem natToBytesBE_length (w v : Nat) : (natToBytesBE w v).length = w := by
  induction w generalizing v with
  | zero => rfl
  | succ w ih => simp [natToBytesBE, ih]

theorem foldl_natToBytesBE (w : Nat) : ∀ v a : Nat, v < 256 ^ w →
    (natToBytesBE w v).foldl (fun acc b => acc * 256 + b) a = a * 256 ^ w + v := by
  induction w with
  | zero =>
    intro v a h
    simp only [pow_zero, Nat.lt_one_iff] at h
    simp [natToBytesBE, h]
  | succ w ih =>
    intro v a h
    have hv : v / 256 < 256 ^ w := by
      apply Nat.div_lt_of_lt_mul
      rw [pow_succ] at h
      omega
    rw [natToBytesBE, List.foldl_append, ih _ _ hv]
    simp only [List.foldl_cons, List.foldl_nil]
    have hdm : v / 256 * 256 + v % 256 = v := by
      rw [Nat.mul_comm]
      exact Nat.div_add_mod v 256
    rw [pow_succ]
    calc (a * 256 ^ w + v / 256) * 256 + v % 256
        = a * (256 ^ w * 256) + (v / 256 * 256 + v % 256) := by ring
      _ = a * (256 ^ w * 256) + v := by rw [hdm]

theorem bytesFromBE_natToBytesBE (w v : Nat) (h : v < 256 ^ w) :
    bytesFromBE (natToBytesBE w v) = v := by
  have := foldl_natToBytesBE w v 0 h
  simpa [bytesFromBE] using this

theorem decodeMsgType_tag (m : MessageType) (h : m.tagOk = true) :
    decodeMsgType m.tag = m := by
  cases m
  case Unknown t =>
    simp only [MessageType.tagOk, Bool.and_eq_true, decide_eq_true_eq] at h
    simp only [MessageType.tag, decodeMsgType]
    repeat rw [if_neg (by omega)]
  all_goals rfl

theorem from_bytes_append (t f : Nat) (S L pl : List Nat)
    (hS : S.length = 16) (hL : L.length = 4) (hpl : bytesFromBE L = pl.length) :
    Packet.from_bytes (t :: (S ++ (f :: (L ++ pl)))) =
      some { header := { msg_type := decodeMsgType t, session_id := bytesFromBE S, flags := f },
             payload := pl } := by
  have hlen : (t :: (S ++ (f :: (L ++ pl)))).length = 22 + pl.length := by
    simp [hS, hL]; omega
  have hd1 : (t :: (S ++ (f :: (L ++ pl)))).drop 1 = S ++ (f :: (L ++ pl)) := rfl
  have htake16 : (S ++ (f :: (L ++ pl))).take 16 = S := List.take_left' hS
  have hd17 : (t :: (S ++ (f :: (L ++ pl)))).drop 17 = f :: (L ++ pl) := by
    rw [List.drop_succ_cons, List.drop_left' hS]
  have hcons : S ++ (f :: (L ++ pl)) = (S ++ [f]) ++ (L ++ pl) := by
    simp
  have hSf : (S ++ [f]).length = 17 := by simp [hS]
  have hd18 : (t :: (S ++ (f :: (L ++ pl)))).drop 18 = L ++ pl := by
    rw [List.drop_succ_cons, hcons, List.drop_left' hSf]
  have htake4 : (L ++ pl).take 4 = L := List.take_left' hL
  have hd22 : (t :: (S ++ (f :: (L ++ pl)))).drop 22 = pl := by
    rw [List.drop_succ_cons, hcons, ← List.append_assoc, List.drop_left' (by simp [hS, hL])]
  simp only [Packet.from_bytes, hlen, hd1, htake16, hd17, hd18, htake4, hd22,
    List.headD_cons, hpl]
  norm_num

theorem from_bytes_to_bytes (p : Packet) (h : p.wf = true) :
    Packet.from_bytes p.to_bytes = some p := by
  obtain ⟨⟨mt, sid, fl⟩, pl⟩ := p
  simp only [Packet.wf, Bool.and_eq_true, decide_eq_true_eq, List.all_eq_true] at h
  obtain ⟨⟨⟨⟨htag, hsid⟩, hfl⟩, hlen⟩, _⟩ := h
  have hb : Packet.to_bytes ⟨⟨mt, sid, fl⟩, pl⟩
      = mt.tag :: (natToBytesBE 16 sid ++ (fl :: (natToBytesBE 4 pl.length ++ pl))) := by
    simp [Packet.to_bytes]
  rw [hb, from_bytes_append mt.tag fl _ _ pl (natToBytesBE_length 16 sid)
    (natToBytesBE_length 4 pl.length) (bytesFromBE_natToBytesBE 4 pl.length hlen)]
  rw [decodeMsgType_tag mt htag, bytesFromBE_natToBytesBE 16 sid hsid]

/-! ## Supporting lemmas on the handlers -/

theorem to_bytes_headD (p : Packet) :
    (Packet.to_bytes p).headD 0 = p.header.msg_type.tag := by
  simp [Packet.to_bytes]

theorem from_bytes_type (bs : List Nat) (q : Packet)
    (h : Packet.from_bytes bs = some q) :
    q.header.msg_type = decodeMsgType (bs.headD 0) := by
  simp only [Packet.from_bytes] at h
  by_cases h1 : bs.length < 22
  · rw [if_pos h1] at h
    exact absurd h (by simp)
  · rw [if_neg h1] at h
    by_cases h2 : (bs.drop 22).length = bytesFromBE ((bs.drop 18).take 4)
    · rw [if_pos h2] at h
      injection h with h'
      rw [← h']
    · rw [if_neg h2] at h
      exact absurd h (by simp)

theorem from_bytes_to_bytes_type (p q : Packet)
    (h : Packet.from_bytes p.to_bytes = some q) :
    q.header.msg_type = decodeMsgType p.header.msg_type.tag := by
  rw [from_bytes_type p.to_bytes q h, to_bytes_headD]

theorem isPresencePublish_metric_tcp (m : MetricEvent) :
    TcpOutput.isPresencePublish (.metric m) = false := rfl

theorem isPresencePublish_write_tcp (p : Packet) :
    TcpOutput.isPresencePublish (.write p) = false := rfl

theorem isPresencePublish_to_bytes_tcp (room : String) (p : Packet)
    (h : decodeMsgType p.header.msg_type.tag ≠ .PresenceUpdate) :
    TcpOutput.isPresencePublish (.publish room p.to_bytes) = false := by
  simp only [TcpOutput.isPresencePublish]
  cases hq : Packet.from_bytes p.to_bytes with
  | none => rfl
  | some q =>
    have ht := from_bytes_to_bytes_type p q hq
    simp [ht, h]

theorem wsStep_no_presence (s : WsSession) (e : WsEvent) :
    ((wsStep s e).2.1).filter WsOutput.isPresencePublish = [] := by
  cases e with
  | msg m =>
    cases m with
    | binary data =>
      cases hfb : Packet.from_bytes data with
      | none => simp [wsStep, hfb, WsOutput.isPresencePublish]
      | some packet =>
        cases htype : packet.header.msg_type <;>
          simp only [wsStep, hfb, htype] <;>
          (try split) <;>
          simp [WsOutput.isPresencePublish, hfb, htype]
    | close => simp [wsStep]
    | streamEnd => simp [wsStep]
    | other => simp [wsStep]
  | bus r bs =>
    simp only [wsStep]
    split <;> simp [WsOutput.isPresencePublish]

theorem tcpStep_no_presence (s : TcpSession) (e : TcpEvent) :
    ((tcpStep s e).2.1).filter TcpOutput.isPresencePublish = [] := by
  cases e with
  | read r =>
    cases r with
    | packet p =>
      cases htype : p.header.msg_type
      case TextMessage =>
        simp only [tcpStep, htype]
        simp only [List.filter_cons, List.filter_nil, isPresencePublish_metric_tcp,
          isPresencePublish_to_bytes_tcp s.room p (by rw [htype]; decide)]
        simp
      case FileInit =>
        simp only [tcpStep, htype]
        simp only [List.filter_cons, List.filter_nil, isPresencePublish_metric_tcp,
          isPresencePublish_to_bytes_tcp s.room p (by rw [htype]; decide)]
        simp
      case FileChunk =>
        simp only [tcpStep, htype]
        simp only [List.filter_cons, List.filter_nil, isPresencePublish_metric_tcp,
          isPresencePublish_to_bytes_tcp s.room p (by rw [htype]; decide)]
        simp
      case FileComplete =>
        simp only [tcpStep, htype]
        simp only [List.filter_cons, List.filter_nil, isPresencePublish_metric_tcp,
          isPresencePublish_to_bytes_tcp s.room p (by rw [htype]; decide)]
        simp
      all_goals
        simp only [tcpStep, htype, List.filter_cons, List.filter_nil,
          isPresencePublish_metric_tcp, isPresencePublish_write_tcp]
      all_goals simp
    | closed => simp [tcpStep]
    | readErr => simp [tcpStep]
  | bus r bs =>
    simp only [tcpStep]
    split
    · cases hfb : Packet.from_bytes bs <;> simp [hfb, TcpOutput.isPresencePublish]
    · simp

theorem tcpStep_no_connMetric (s : TcpSession) (e : TcpEvent) :
    ((tcpStep s e).2.1).filter TcpOutput.isConnMetric = [] := by
  cases e with
  | read r =>
    cases r with
    | packet p =>
      cases htype : p.header.msg_type <;>
        simp [tcpStep, htype, TcpOutput.isConnMetric]
    | closed => simp [tcpStep]
    | readErr => simp [tcpStep]
  | bus r bs =>
    simp only [tcpStep]
    split
    · cases hfb : Packet.from_bytes bs <;> simp [hfb, TcpOutput.isConnMetric]
    · simp

theorem wsStep_no_connMetric (s : WsSession) (e : WsEvent) :
    ((wsStep s e).2.1).filter WsOutput.isConnMetric = [] := by
  cases e with
  | msg m =>
    cases m with
    | binary data =>
      cases hfb : Packet.from_bytes data with
      | none => simp [wsStep, hfb, WsOutput.isConnMetric]
      | some packet =>
        cases htype : packet.header.msg_type <;>
          simp only [wsStep, hfb, htype] <;>
          (try split) <;>
          simp [WsOutput.isConnMetric]
    | close => simp [wsStep]
    | streamEnd => simp [wsStep]
    | other => simp [wsStep]
  | bus r bs =>
    simp only [wsStep]
    split <;> simp [WsOutput.isConnMetric]

theorem tcpLoop_filter (f : TcpOutput → Bool)
    (hstep : ∀ s e, ((tcpStep s e).2.1).filter f = [])
    (events : List TcpEvent) : ∀ s : TcpSession, ((tcpLoop s events).2).filter f = [] := by
  induction events with
  | nil => intro s; rfl
  | cons e es ih =>
    intro s
    simp only [tcpLoop]
    split
    · simpa using hstep s e
    · simp [List.filter_append, hstep, ih]

theorem wsLoop_filter (f : WsOutput → Bool)
    (hstep : ∀ s e, ((wsStep s e).2.1).filter f = [])
    (events : List WsEvent) : ∀ s : WsSession, ((wsLoop s events).2).filter f = [] := by
  induction events with
  | nil => intro s; rfl
  | cons e es ih =>
    intro s
    simp only [wsLoop]
    split
    · simpa using hstep s e
    · simp [List.filter_append, hstep, ih]

theorem tcpHandshake_filter (f : TcpOutput → Bool)
    (hrx : ∀ n, f (.metric (.add_rx n)) = false)
    (htx : ∀ n, f (.metric (.add_tx n)) = false)
    (hw : ∀ p, f (.write p) = false)
    (r1 r2 : TcpRead) :
    ((tcpHandshake r1 r2).out).filter f = [] := by
  cases r1 with
  | packet p1 =>
    by_cases h1 : p1.header.msg_type = MessageType.HandshakeInit
    · cases r2 with
      | packet p2 =>
        by_cases h2 : p2.header.msg_type = MessageType.HandshakeComplete
        · simp [tcpHandshake, HandshakeResult.out, h1, h2, hrx, htx, hw]
        · simp [tcpHandshake, HandshakeResult.out, h1, h2, hrx, htx, hw]
      | closed => simp [tcpHandshake, HandshakeResult.out, h1, hrx, htx, hw]
      | readErr => simp [tcpHandshake, HandshakeResult.out, h1, hrx, htx, hw]
    · simp [tcpHandshake, HandshakeResult.out, h1, hrx]
  | closed => rfl
  | readErr => rfl

theorem handle_connection_out (r1 r2 : TcpRead) (events : List TcpEvent) :
    handle_connection r1 r2 events =
      (tcpHandshake r1 r2).out ++
        (match (tcpHandshake r1 r2).sidOf with
         | some sid =>
           (tcpLoop { username := "guest", room := "global", session_id := sid } events).2
         | none => []) := by
  unfold handle_connection
  cases h : tcpHandshake r1 r2 with
  | established sid out => simp [HandshakeResult.out, HandshakeResult.sidOf]
  | failed out => simp [HandshakeResult.out, HandshakeResult.sidOf]

theorem wsStep_sid_some (s : WsSession) (e : WsEvent) (sid : Nat)
    (h : s.connected_session_id = some sid) :
    (wsStep s e).1.connected_session_id = some sid := by
  cases e with
  | msg m =>
    cases m with
    | binary data =>
      cases hfb : Packet.from_bytes data with
      | none => simp [wsStep, hfb, h]
      | some packet =>
        cases htype : packet.header.msg_type <;>
          simp only [wsStep, hfb, htype, h] <;>
          (try split) <;>
          simp [h]
    | close => simp [wsStep, h]
    | streamEnd => simp [wsStep, h]
    | other => simp [wsStep, h]
  | bus r bs =>
    simp only [wsStep]
    split <;> simp [h]

theorem wsStep_sid_none_invalid (s : WsSession) (e : WsEvent)
    (he : e.validFrame = false) (hs : s.connected_session_id = none) :
    (wsStep s e).1.connected_session_id = none := by
  cases e with
  | msg m =>
    cases m with
    | binary data =>
      simp only [WsEvent.validFrame] at he
      cases hfb : Packet.from_bytes data with
      | none => simp [wsStep, hfb, hs]
      | some packet => rw [hfb] at he; simp at he
    | close => simp [wsStep, hs]
    | streamEnd => simp [wsStep, hs]
    | other => simp [wsStep, hs]
  | bus r bs =>
    simp only [wsStep]
    split <;> simp [hs]

theorem wsLoop_sid_none : ∀ events : List WsEvent,
    events.all (fun e => !e.validFrame) = true →
    ∀ s : WsSession, s.connected_session_id = none →
      (wsLoop s events).1.connected_session_id = none := by
  intro events
  induction events with
  | nil => intro _ s hs; exact hs
  | cons e es ih =>
    intro h s hs
    simp only [List.all_cons, Bool.and_eq_true, Bool.not_eq_true'] at h
    simp only [wsLoop]
    split
    · exact wsStep_sid_none_invalid s e h.1 hs
    · exact ih h.2 _ (wsStep_sid_none_invalid s e h.1 hs)

theorem from_bytes_to_bytes_of_short (p : Packet) (hlen : p.payload.length < 256 ^ 4) :
    Packet.from_bytes p.to_bytes =
      some { header := { msg_type := decodeMsgType p.header.msg_type.tag,
                         session_id := bytesFromBE (natToBytesBE 16 p.header.session_id),
                         flags := p.header.flags },
             payload := p.payload } := by
  obtain ⟨⟨mt, sid, fl⟩, pl⟩ := p
  have hb : Packet.to_bytes ⟨⟨mt, sid, fl⟩, pl⟩
      = mt.tag :: (natToBytesBE 16 sid ++ (fl :: (natToBytesBE 4 pl.length ++ pl))) := by
    simp [Packet.to_bytes]
  rw [hb, from_bytes_append mt.tag fl _ _ pl (natToBytesBE_length 16 sid)
    (natToBytesBE_length 4 pl.length) (bytesFromBE_natToBytesBE 4 pl.length hlen)]

theorem isPresencePublish_metric_ws (m : MetricEvent) :
    WsOutput.isPresencePublish (.metric m) = false := rfl

theorem isPresencePublish_send_ws (d : List Nat) :
    WsOutput.isPresencePublish (.ws_send d) = false := rfl

theorem isPresencePublish_leave (room : String) (sid : Nat) :
    WsOutput.isPresencePublish
      (.publish room (Packet.new .PresenceUpdate (strBytes "LEAVE") sid).to_bytes) = true := by
  simp only [WsOutput.isPresencePublish]
  rw [from_bytes_to_bytes_of_short (Packet.new .PresenceUpdate (strBytes "LEAVE") sid)
    (by simp only [Packet.new]; decide)]
  simp only [Packet.new]
  rfl

theorem sidOf_none_of_not_established (r : HandshakeResult)
    (h : r.isEstablished = false) : r.sidOf = none := by
  cases r with
  | established sid out => simp [HandshakeResult.isEstablished] at h
  | failed out => rfl

theorem not_mem_of_filter_eq_nil {α : Type} (f : α → Bool) (l : List α)
    (h : l.filter f = []) (a : α) (ha : f a = true) : a ∉ l := by
  intro hmem
  have hmf := List.mem_filter.mpr ⟨hmem, ha⟩
  rw [h] at hmf
  exact absurd hmf (List.not_mem_nil a)

/-! ## Claim theorems -/

/-- C1, counterexample: on the WebSocket transport no handshake is
enforced — a connection whose very first frame is a TextMessage packet
(not HandshakeInit) has that application message routed onto the bus
instead of being closed, contradicting the claim for "every connection
on either transport". -/
theorem C1_counterexample :
    WsOutput.publish "global" (Packet.new .TextMessage (strBytes "hi") 7).to_bytes
      ∈ handle_socket
          [.msg (.binary (Packet.new .TextMessage (strBytes "hi") 7).to_bytes),
           .msg .close] := by decide

/-- C1 (amended): on the TCP transport, a connection whose first packet
is not HandshakeInit, or whose second packet is not HandshakeComplete,
never reaches Established and nothing is ever published on its behalf;
the WebSocket transport enforces no handshake at all. -/
theorem C1_tcp_handshake_gate (r1 r2 : TcpRead) (events : List TcpEvent)
    (h : r1.isInit = false ∨ r2.isComplete = false) :
    (tcpHandshake r1 r2).isEstablished = false
    ∧ ∀ room bs, TcpOutput.publish room bs ∉ handle_connection r1 r2 events := by
  have hest : (tcpHandshake r1 r2).isEstablished = false := by
    cases r1 with
    | packet p1 =>
      by_cases h1 : p1.header.msg_type = MessageType.HandshakeInit
      · cases r2 with
        | packet p2 =>
          by_cases h2 : p2.header.msg_type = MessageType.HandshakeComplete
          · rcases h with h | h
            · simp [TcpRead.isInit, h1] at h
            · simp [TcpRead.isComplete, h2] at h
          · simp [tcpHandshake, h1, h2, HandshakeResult.isEstablished]
        | closed => simp [tcpHandshake, h1, HandshakeResult.isEstablished]
        | readErr => simp [tcpHandshake, h1, HandshakeResult.isEstablished]
      · simp [tcpHandshake, h1, HandshakeResult.isEstablished]
    | closed => rfl
    | readErr => rfl
  refine ⟨hest, ?_⟩
  intro room bs
  have hout : handle_connection r1 r2 events = (tcpHandshake r1 r2).out := by
    rw [handle_connection_out, sidOf_none_of_not_established _ hest]
    simp
  rw [hout]
  exact not_mem_of_filter_eq_nil TcpOutput.isPublish _
    (tcpHandshake_filter TcpOutput.isPublish (fun _ => rfl) (fun _ => rfl) (fun _ => rfl) r1 r2)
    _ rfl

/-- C1, witness: a TCP connection whose first packet is a TextMessage is
rejected without Established and without any publish. -/
theorem C1_witness :
    (tcpHandshake (.packet (Packet.new .TextMessage [] 3)) .closed).isEstablished = false
    ∧ ∀ room bs, TcpOutput.publish room bs
        ∉ handle_connection (.packet (Packet.new .TextMessage [] 3)) .closed [] :=
  C1_tcp_handshake_gate _ _ _ (Or.inl (by decide))

/-- C6, counterexample: a HandshakeComplete carrying session id 2 after a
HandshakeInit carrying session id 1 is accepted — the connection reaches
Established (with the HandshakeComplete's id), while the claim says a
different session id is fatal. -/
theorem C6_counterexample :
    (tcpHandshake (.packet (Packet.new .HandshakeInit [] 1))
        (.packet (Packet.new .HandshakeComplete [] 2))).isEstablished = true
    ∧ (tcpHandshake (.packet (Packet.new .HandshakeInit [] 1))
        (.packet (Packet.new .HandshakeComplete [] 2))).sidOf = some 2 := by decide

/-- C6 (amended): after HandshakeInit is accepted, the TCP handshake
reaches Established exactly when the second packet has type
HandshakeComplete; the session id is not compared, and the session
adopts the session id carried by the HandshakeComplete packet. -/
theorem C6_sid_not_checked (p1 : Packet) (r2 : TcpRead)
    (h1 : p1.header.msg_type = .HandshakeInit) :
    ((tcpHandshake (.packet p1) r2).isEstablished = true ↔ r2.isComplete = true)
    ∧ ∀ p2, r2 = .packet p2 →
        (tcpHandshake (.packet p1) r2).sidOf
          = (if p2.header.msg_type = .HandshakeComplete then some p2.header.session_id
             else none) := by
  constructor
  · cases r2 with
    | packet p2 =>
      by_cases h2 : p2.header.msg_type = MessageType.HandshakeComplete <;>
        simp [tcpHandshake, h1, h2, HandshakeResult.isEstablished, TcpRead.isComplete]
    | closed => simp [tcpHandshake, h1, HandshakeResult.isEstablished, TcpRead.isComplete]
    | readErr => simp [tcpHandshake, h1, HandshakeResult.isEstablished, TcpRead.isComplete]
  · cases r2 with
    | packet p2' =>
      intro p2 he
      injection he with he'
      subst he'
      by_cases h2 : p2'.header.msg_type = MessageType.HandshakeComplete <;>
        simp [tcpHandshake, h1, h2, HandshakeResult.sidOf]
    | closed => intro p2 he; exact absurd he (by simp)
    | readErr => intro p2 he; exact absurd he (by simp)

/-- C6, witness: with HandshakeInit(session 1) then
HandshakeComplete(session 2), the amended statement evaluates as
proved. -/
theorem C6_witness :
    ((tcpHandshake (.packet (Packet.new .HandshakeInit [] 1))
        (.packet (Packet.new .HandshakeComplete [] 2))).isEstablished = true
      ↔ (TcpRead.packet (Packet.new .HandshakeComplete [] 2)).isComplete = true)
    ∧ ∀ p2, (TcpRead.packet (Packet.new .HandshakeComplete [] 2)) = .packet p2 →
        (tcpHandshake (.packet (Packet.new .HandshakeInit [] 1))
          (.packet (Packet.new .HandshakeComplete [] 2))).sidOf
          = (if p2.header.msg_type = .HandshakeComplete then some p2.header.session_id
             else none) :=
  C6_sid_not_checked _ _ (by decide)

/-- C7, counterexample: on the WebSocket transport a frame containing a
Disconnect packet does not terminate the session loop (it falls into the
handler's catch-all arm), contradicting the claim for "either
transport". -/
theorem C7_counterexample :
    (wsStep { room := "global", connected_session_id := none }
        (.msg (.binary (Packet.new .Disconnect [] 9).to_bytes))).2.2 = false
    ∧ (wsStep { room := "global", connected_session_id := none }
        (.msg (.binary (Packet.new .Disconnect [] 9).to_bytes))).1.room = "global"
      := by decide

/-- C7 (amended): a Disconnect packet causes immediate, orderly
termination of the session loop on the TCP transport; on the WebSocket
transport a Disconnect packet is ignored and does not terminate the
loop, whereas a Close frame or end of stream does terminate it. -/
theorem C7_disconnect (s : TcpSession) (w : WsSession) (p q : Packet) (data : List Nat)
    (hp : p.header.msg_type = .Disconnect)
    (hdec : Packet.from_bytes data = some q)
    (hq : q.header.msg_type = .Disconnect) :
    (tcpStep s (.read (.packet p))).2.2 = true
    ∧ (wsStep w (.msg (.binary data))).2.2 = false
    ∧ (wsStep w (.msg .close)).2.2 = true
    ∧ (wsStep w (.msg .streamEnd)).2.2 = true := by
  refine ⟨?_, ?_, rfl, rfl⟩
  · simp [tcpStep, hp]
  · simp [wsStep, hdec, hq]

/-- C7, witness: evaluated at a concrete Disconnect packet on both
transports. -/
theorem C7_witness :
    (tcpStep { username := "guest", room := "global", session_id := 9 }
        (.read (.packet (Packet.new .Disconnect [] 9)))).2.2 = true
    ∧ (wsStep { room := "global", connected_session_id := none }
        (.msg (.binary (Packet.new .Disconnect [] 9).to_bytes))).2.2 = false
    ∧ (wsStep { room := "global", connected_session_id := none } (.msg .close)).2.2 = true
    ∧ (wsStep { room := "global", connected_session_id := none } (.msg .streamEnd)).2.2
        = true :=
  C7_disconnect _ _ _ (Packet.new .Disconnect [] 9) _ rfl (by decide) rfl

/-- C8: a read failure (truncated or malformed frame) is fatal to the
TCP session loop, while a WebSocket binary frame whose bytes fail to
decode as a Packet is dropped — the session continues with its state
(room, session-id capture) unchanged, emitting only the received-bytes
metric. -/
theorem C8_framing (s : TcpSession) (w : WsSession) (data : List Nat)
    (hbad : Packet.from_bytes data = none) :
    (tcpStep s (.read .readErr)).2.2 = true
    ∧ wsStep w (.msg (.binary data)) = (w, [.metric (.add_rx data.length)], false) :=
  ⟨rfl, by simp [wsStep, hbad]⟩

/-- C8, witness: evaluated at the empty (hence malformed) frame. -/
theorem C8_witness :
    (tcpStep { username := "guest", room := "global", session_id := 2 }
        (.read .readErr)).2.2 = true
    ∧ wsStep { room := "global", connected_session_id := none } (.msg (.binary []))
        = ({ room := "global", connected_session_id := none }, [.metric (.add_rx 0)], false) :=
  C8_framing _ _ [] (by decide)

/-- C2, counterexample: an Established TCP session that terminates via an
explicit Disconnect publishes no PresenceUpdate at all (the TCP handler
has no disconnect notice), contradicting "exactly one PresenceUpdate
with payload leave" for "every Established session on either
transport". -/
theorem C2_counterexample :
    (tcp_task (.packet (Packet.new .HandshakeInit [] 5))
        (.packet (Packet.new .HandshakeComplete [] 5))
        [.read (.packet (Packet.new .Disconnect [] 5))]).filter TcpOutput.isPresencePublish
      = [] := by decide

/-- C2 (amended): only the WebSocket handler publishes a departure
notice — on termination, if a session id was captured, exactly one
PresenceUpdate packet with payload "LEAVE" (not "leave") and that id
is published into the session's last room (none when no frame ever
decoded); the TCP handler never publishes any PresenceUpdate. -/
theorem C2_leave_notice (events : List WsEvent) (r1 r2 : TcpRead) (tevents : List TcpEvent) :
    (handle_socket events).filter WsOutput.isPresencePublish
      = (match (wsLoop { room := "global", connected_session_id := none }
            events).1.connected_session_id with
         | some sid =>
           [WsOutput.publish
             (wsLoop { room := "global", connected_session_id := none } events).1.room
             (Packet.new .PresenceUpdate (strBytes "LEAVE") sid).to_bytes]
         | none => [])
    ∧ (tcp_task r1 r2 tevents).filter TcpOutput.isPresencePublish = [] := by
  constructor
  · simp only [handle_socket]
    cases hsid : (wsLoop { room := "global", connected_session_id := none }
        events).1.connected_session_id with
    | some sid =>
      simp only [hsid]
      simp [List.filter_append, wsLoop_filter _ wsStep_no_presence, isPresencePublish_leave,
        isPresencePublish_metric_ws]
    | none =>
      simp only [hsid]
      simp [List.filter_append, wsLoop_filter _ wsStep_no_presence, isPresencePublish_metric_ws]
  · simp only [tcp_task, handle_connection_out]
    cases hsid : (tcpHandshake r1 r2).sidOf with
    | some sid =>
      simp only [hsid]
      simp [List.filter_append, List.filter_cons,
        tcpHandshake_filter TcpOutput.isPresencePublish (fun _ => rfl) (fun _ => rfl)
          (fun _ => rfl) r1 r2,
        tcpLoop_filter _ tcpStep_no_presence, isPresencePublish_metric_tcp]
    | none =>
      simp only [hsid]
      simp [List.filter_append, List.filter_cons,
        tcpHandshake_filter TcpOutput.isPresencePublish (fun _ => rfl) (fun _ => rfl)
          (fun _ => rfl) r1 r2, isPresencePublish_metric_tcp]

/-- C3, counterexample: an Established TCP session receiving a VoiceData
packet publishes nothing (VoiceData falls into the TCP handler's
catch-all arm), contradicting "exactly one publish" for every
application message type on either transport. -/
theorem C3_counterexample :
    (tcpStep { username := "guest", room := "global", session_id := 5 }
        (.read (.packet (Packet.new .VoiceData [1, 2] 5)))).2.1.filter TcpOutput.isPublish
      = [] := by decide

/-- C3 (amended): an Established WebSocket session publishes
`(current_room, frame_bytes)` exactly once for all six application
types; an Established TCP session does so (with the re-encoded packet
bytes) only for TextMessage/FileInit/FileChunk/FileComplete, while
VoiceData and VideoData are silently ignored; in every case the
publish's send error is discarded and the loop continues, so a publish
with zero subscribers never terminates the session. -/
theorem C3_publish_contract (s : TcpSession) (w : WsSession) (p q p2 : Packet)
    (data : List Nat)
    (htcp : tcpBroadcastType p.header.msg_type = true)
    (hdec : Packet.from_bytes data = some q)
    (hws : wsBroadcastType q.header.msg_type = true)
    (hvv : p2.header.msg_type = .VoiceData ∨ p2.header.msg_type = .VideoData) :
    ((tcpStep s (.read (.packet p))).2.1.filter TcpOutput.isPublish
        = [.publish s.room p.to_bytes]
      ∧ (tcpStep s (.read (.packet p))).2.2 = false)
    ∧ ((wsStep w (.msg (.binary data))).2.1.filter WsOutput.isPublish
        = [.publish w.room data]
      ∧ (wsStep w (.msg (.binary data))).2.2 = false)
    ∧ ((tcpStep s (.read (.packet p2))).2.1.filter TcpOutput.isPublish = []
      ∧ (tcpStep s (.read (.packet p2))).2.2 = false) := by
  refine ⟨?_, ?_, ?_⟩
  · cases htype : p.header.msg_type <;> rw [htype] at htcp <;>
      simp [tcpBroadcastType] at htcp <;>
      simp [tcpStep, htype, TcpOutput.isPublish]
  · cases htype : q.header.msg_type <;> rw [htype] at hws <;>
      simp [wsBroadcastType] at hws <;>
      simp [wsStep, hdec, htype, WsOutput.isPublish]
  · rcases hvv with h | h <;> simp [tcpStep, h, TcpOutput.isPublish]

/-- C3, witness: evaluated at a TextMessage on TCP, a VoiceData frame on
WebSocket, and a VideoData packet on TCP. -/
theorem C3_witness :
    ((tcpStep { username := "guest", room := "global", session_id := 7 }
        (.read (.packet (Packet.new .TextMessage (strBytes "hi") 7)))).2.1.filter
          TcpOutput.isPublish
        = [.publish "global" (Packet.new .TextMessage (strBytes "hi") 7).to_bytes]
      ∧ (tcpStep { username := "guest", room := "global", session_id := 7 }
          (.read (.packet (Packet.new .TextMessage (strBytes "hi") 7)))).2.2 = false)
    ∧ ((wsStep { room := "global", connected_session_id := none }
          (.msg (.binary (Packet.new .VoiceData [1] 4).to_bytes))).2.1.filter
            WsOutput.isPublish
        = [.publish "global" (Packet.new .VoiceData [1] 4).to_bytes]
      ∧ (wsStep { room := "global", connected_session_id := none }
          (.msg (.binary (Packet.new .VoiceData [1] 4).to_bytes))).2.2 = false)
    ∧ ((tcpStep { username := "guest", room := "global", session_id := 7 }
          (.read (.packet (Packet.new .VideoData [] 2)))).2.1.filter TcpOutput.isPublish
        = []
      ∧ (tcpStep { username := "guest", room := "global", session_id := 7 }
          (.read (.packet (Packet.new .VideoData [] 2)))).2.2 = false) :=
  C3_publish_contract _ _ _ (Packet.new .VoiceData [1] 4) _ _
    (by decide) (by decide) (by decide) (Or.inr (by decide))

/-- C4, counterexample: a TCP JoinRoom with payload "lobby" sets the room
to the hardcoded literal "files" — neither the payload-derived name nor
the unchanged previous room — contradicting the claim for "either
transport". -/
theorem C4_counterexample :
    (tcpStep { username := "guest", room := "global", session_id := 3 }
        (.read (.packet (Packet.new .JoinRoom (strBytes "lobby") 3)))).1.room = "files"
    ∧ ("files" : String) ≠ "lobby" ∧ ("files" : String) ≠ "global" := by decide

/-- C4 (amended): JoinRoom is never published on either transport; on
the WebSocket transport it sets the room to the payload decoded as UTF-8
when valid and leaves the room unchanged otherwise, while on the TCP
transport it ignores the payload and sets the room to the literal
"files". -/
theorem C4_joinroom (s : TcpSession) (w : WsSession) (p q : Packet) (data : List Nat)
    (hp : p.header.msg_type = .JoinRoom)
    (hdec : Packet.from_bytes data = some q)
    (hq : q.header.msg_type = .JoinRoom) :
    ((tcpStep s (.read (.packet p))).1.room = "files"
      ∧ (tcpStep s (.read (.packet p))).2.1.filter TcpOutput.isPublish = [])
    ∧ ((wsStep w (.msg (.binary data))).1.room
        = (match from_utf8 q.payload with
           | some newRoom => newRoom
           | none => w.room)
      ∧ (wsStep w (.msg (.binary data))).2.1.filter WsOutput.isPublish = []) := by
  refine ⟨⟨?_, ?_⟩, ?_⟩
  · simp [tcpStep, hp]
  · simp [tcpStep, hp, TcpOutput.isPublish]
  · cases hutf : from_utf8 q.payload with
    | some newRoom => simp [wsStep, hdec, hq, hutf, WsOutput.isPublish]
    | none => simp [wsStep, hdec, hq, hutf, WsOutput.isPublish]

/-- C4, witness: evaluated at JoinRoom("lobby") packets on both
transports. -/
theorem C4_witness :
    ((tcpStep { username := "guest", room := "global", session_id := 3 }
        (.read (.packet (Packet.new .JoinRoom (strBytes "lobby") 3)))).1.room = "files"
      ∧ (tcpStep { username := "guest", room := "global", session_id := 3 }
          (.read (.packet (Packet.new .JoinRoom (strBytes "lobby") 3)))).2.1.filter
            TcpOutput.isPublish = [])
    ∧ ((wsStep { room := "global", connected_session_id := none }
          (.msg (.binary (Packet.new .JoinRoom (strBytes "lobby") 3).to_bytes))).1.room
        = (match from_utf8 (Packet.new .JoinRoom (strBytes "lobby") 3).payload with
           | some newRoom => newRoom
           | none => ({ room := "global", connected_session_id := none } : WsSession).room)
      ∧ (wsStep { room := "global", connected_session_id := none }
          (.msg (.binary (Packet.new .JoinRoom (strBytes "lobby") 3).to_bytes))).2.1.filter
            WsOutput.isPublish = []) :=
  C4_joinroom _ _ _ (Packet.new .JoinRoom (strBytes "lobby") 3) _
    rfl (by decide) rfl

/-- C5: a bus tuple is forwarded to the session's outbound transport
exactly when its room equals the session's current room at receipt, on
both transports; tuples for any other room produce no output at all —
the hypothesis that the tuple's bytes decode holds for every tuple on
the bus, since each is published either as `Packet::to_bytes` of a
packet or as frame bytes that already decoded. -/
theorem C5_room_isolation (s : TcpSession) (w : WsSession) (msgRoom : String)
    (bs : List Nat) (q : Packet) (hdec : Packet.from_bytes bs = some q) :
    ((TcpOutput.write q ∈ (tcpStep s (.bus msgRoom bs)).2.1) ↔ msgRoom = s.room)
    ∧ ((WsOutput.ws_send bs ∈ (wsStep w (.bus msgRoom bs)).2.1) ↔ msgRoom = w.room)
    ∧ (msgRoom ≠ s.room → (tcpStep s (.bus msgRoom bs)).2.1 = [])
    ∧ (msgRoom ≠ w.room → (wsStep w (.bus msgRoom bs)).2.1 = []) := by
  refine ⟨?_, ?_, ?_, ?_⟩
  · by_cases hr : msgRoom = s.room <;> simp [tcpStep, hr, hdec]
  · by_cases hr : msgRoom = w.room <;> simp [wsStep, hr]
  · intro hr; simp [tcpStep, hr]
  · intro hr; simp [wsStep, hr]

/-- C5, witness: evaluated at a decodable TextMessage tuple for room
"global" against sessions whose current room is "global". -/
theorem C5_witness :
    ((TcpOutput.write (Packet.new .TextMessage (strBytes "hi") 7)
        ∈ (tcpStep { username := "guest", room := "global", session_id := 7 }
            (.bus "global" (Packet.new .TextMessage (strBytes "hi") 7).to_bytes)).2.1)
      ↔ ("global" : String) = "global")
    ∧ ((WsOutput.ws_send (Packet.new .TextMessage (strBytes "hi") 7).to_bytes
        ∈ (wsStep { room := "global", connected_session_id := none }
            (.bus "global" (Packet.new .TextMessage (strBytes "hi") 7).to_bytes)).2.1)
      ↔ ("global" : String) = "global")
    ∧ (("global" : String) ≠ "global" →
        (tcpStep { username := "guest", room := "global", session_id := 7 }
          (.bus "global" (Packet.new .TextMessage (strBytes "hi") 7).to_bytes)).2.1 = [])
    ∧ (("global" : String) ≠ "global" →
        (wsStep { room := "global", connected_session_id := none }
          (.bus "global" (Packet.new .TextMessage (strBytes "hi") 7).to_bytes)).2.1 = []) :=
  C5_room_isolation _ _ _ _ (Packet.new .TextMessage (strBytes "hi") 7) (by decide)

/-- C9: on the WebSocket path the session id is captured from the first
binary frame that decodes as a packet regardless of its message type,
it never changes afterwards, and if no frame ever decodes then the
handler publishes no PresenceUpdate at all on disconnect. -/
theorem C9_sid_capture (w : WsSession) (data : List Nat) (q : Packet)
    (events : List WsEvent)
    (hdec : Packet.from_bytes data = some q)
    (hnone : w.connected_session_id = none) :
    (wsStep w (.msg (.binary data))).1.connected_session_id = some q.header.session_id
    ∧ (∀ (s : WsSession) (e : WsEvent) (sid : Nat), s.connected_session_id = some sid →
        (wsStep s e).1.connected_session_id = some sid)
    ∧ (events.all (fun e => !e.validFrame) = true →
        (handle_socket events).filter WsOutput.isPresencePublish = []) := by
  refine ⟨?_, fun s e sid h => wsStep_sid_some s e sid h, ?_⟩
  · cases htype : q.header.msg_type <;>
      simp only [wsStep, hdec, htype, hnone] <;>
      (try split) <;>
      simp [hnone]
  · intro hall
    have hfin : (wsLoop { room := "global", connected_session_id := none }
        events).1.connected_session_id = none :=
      wsLoop_sid_none events hall _ rfl
    simp only [handle_socket, hfin]
    simp [List.filter_append, wsLoop_filter _ wsStep_no_presence, isPresencePublish_metric_ws]

/-- C9, witness: a HandshakeInit frame (not an application type) captures
the session id; a run with only an undecodable frame publishes
nothing. -/
theorem C9_witness :
    (wsStep { room := "global", connected_session_id := none }
        (.msg (.binary (Packet.new .HandshakeInit [] 11).to_bytes))).1.connected_session_id
      = some (Packet.new .HandshakeInit [] 11).header.session_id
    ∧ (∀ (s : WsSession) (e : WsEvent) (sid : Nat), s.connected_session_id = some sid →
        (wsStep s e).1.connected_session_id = some sid)
    ∧ (([WsEvent.msg (.binary [0]), .msg .close].all (fun e => !e.validFrame)) = true →
        (handle_socket [.msg (.binary [0]), .msg .close]).filter
          WsOutput.isPresencePublish = []) :=
  C9_sid_capture _ _ (Packet.new .HandshakeInit [] 11) _ (by decide) rfl

/-- C10: on both transports the connection counter is incremented exactly
once before the session logic and decremented exactly once after it, on
every exit path — the connection-counter calls observed in a whole task
run are exactly [increment, decrement]. -/
theorem C10_metrics_pairing (r1 r2 : TcpRead) (tevents : List TcpEvent)
    (wevents : List WsEvent) :
    (tcp_task r1 r2 tevents).filter TcpOutput.isConnMetric
      = [.metric .inc_connection, .metric .dec_connection]
    ∧ (handle_socket wevents).filter WsOutput.isConnMetric
      = [.metric .inc_connection, .metric .dec_connection] := by
  constructor
  · simp only [tcp_task, handle_connection_out]
    cases hsid : (tcpHandshake r1 r2).sidOf with
    | some sid =>
      simp only [hsid]
      simp [List.filter_append, List.filter_cons,
        tcpHandshake_filter TcpOutput.isConnMetric (fun _ => rfl) (fun _ => rfl)
          (fun _ => rfl) r1 r2,
        tcpLoop_filter _ tcpStep_no_connMetric, TcpOutput.isConnMetric]
    | none =>
      simp only [hsid]
      simp [List.filter_append, List.filter_cons,
        tcpHandshake_filter TcpOutput.isConnMetric (fun _ => rfl) (fun _ => rfl)
          (fun _ => rfl) r1 r2, TcpOutput.isConnMetric]
  · simp only [handle_socket]
    cases hsid : (wsLoop { room := "global", connected_session_id := none }
        wevents).1.connected_session_id with
    | some sid =>
      simp only [hsid]
      simp [List.filter_append, wsLoop_filter _ wsStep_no_connMetric, WsOutput.isConnMetric]
    | none =>
      simp only [hsid]
      simp [List.filter_append, wsLoop_filter _ wsStep_no_connMetric, WsOutput.isConnMetric]
